import Mathlib

/-!
# Verification of the notebook code in `amazon-sagemaker-examples` (fork)

Shallow embedding of the three notebooks of the repository:

* `prep_data/tabular_data/02_feature_selection_tabular_data.ipynb` — the
  feature-selection helpers `show_ranked_feature_importance_list` and
  `remove_features` acting on pandas dataframes;
* the scheduling notebook (SageMaker Pipelines with SKLearn) — the two
  `Pipeline` objects and their step lists, plus the trace of SDK calls;
* `hyperparameter_tuning/xgboost_random_log/hpo_xgboost_random_log.ipynb` —
  the two `HyperparameterTuner` configurations, the hyperparameter range
  dictionaries, the `np.split` three-way data split, and the trace of SDK
  calls.

Dataframes are modelled as ordered lists of named columns; importance
scores and thresholds (Python floats compared with `<=` and sorted) are
modelled as rationals.  Straight-line notebook code that only issues SDK
calls is modelled as a trace: a list of events in program order.
-/

namespace FeatureSelection

/-- A pandas dataframe, as the feature-selection notebook uses it: an
ordered list of columns, each a name paired with its values. -/
structure DataFrame where
  cols : List (String × List ℚ)
deriving DecidableEq

/-- `data.columns` of pandas: the column names, in order. -/
def DataFrame.columns (d : DataFrame) : List String :=
  d.cols.map Prod.fst

/-- `data.drop(features, axis=1)` of pandas without `inplace=True`: returns
a new dataframe without the named columns; the receiver is not modified. -/
def DataFrame.drop (d : DataFrame) (features : List String) : DataFrame :=
  ⟨d.cols.filter (fun c => ¬ features.contains c.1)⟩

/-- The list `features_to_remove` accumulated by the loop inside
`remove_features`: the names paired (via `zip(data.columns, lst)`) with a
score `<=` the threshold, in column order. -/
def features_to_remove (lst : List ℚ) (data : DataFrame) (threshold : ℚ) :
    List String :=
  (((data.columns).zip lst).filter (fun pair => pair.2 ≤ threshold)).map Prod.fst

/-- `remove_features(lst, data, threshold)` from the feature-selection
notebook, as a map from the dataframe passed in to its state when the call
returns.  The body computes `features_to_remove` and, when it is nonempty,
evaluates `data.drop(features_to_remove, axis=1)` — whose result is bound
to nothing and discarded, so the dataframe state is returned unchanged. -/
def remove_features (lst : List ℚ) (data : DataFrame) (threshold : ℚ) :
    DataFrame :=
  let fr := features_to_remove lst data threshold
  if fr.isEmpty then
    data
  else
    let _discarded := data.drop fr
    data

/-- `show_ranked_feature_importance_list(scores, data)`: builds
`lst = list(zip(data.columns, scores))` and prints
`sorted(lst, key=lambda t: t[1], reverse=True)`; we model the ranked list
that is printed.  Python's `sorted` with `reverse=True` is a stable sort
into non-increasing key order, which `List.mergeSort` with the flipped
comparison implements. -/
def show_ranked_feature_importance_list (scores : List ℚ) (data : DataFrame) :
    List (String × ℚ) :=
  let lst := (data.columns).zip scores
  lst.mergeSort (fun a b => b.2 ≤ a.2)

end FeatureSelection

namespace Scheduling

/-- The kinds of SageMaker workflow steps constructed in the scheduling
notebook: `ProcessingStep`, `TrainingStep`, `CreateModelStep`,
`TransformStep`. -/
inductive StepKind where
  | processing
  | training
  | createModel
  | transform
deriving DecidableEq

/-- A named pipeline step, as passed to the `Pipeline` constructor. -/
structure Step where
  name : String
  kind : StepKind
deriving DecidableEq

/-- `step_process = ProcessingStep(name="scheduled-pipeline-sklearn-process", ...)`. -/
def step_process : Step :=
  ⟨"scheduled-pipeline-sklearn-process", .processing⟩

/-- `step_train = TrainingStep(name="scheduled-pipeline-sklearn-training", ...)`. -/
def step_train : Step :=
  ⟨"scheduled-pipeline-sklearn-training", .training⟩

/-- `step_create_model = CreateModelStep(name="scheduled-pipeline-sklearn-createmodel", ...)`. -/
def step_create_model : Step :=
  ⟨"scheduled-pipeline-sklearn-createmodel", .createModel⟩

/-- `transformer_step = TransformStep(name="scheduled-pipeline-sklearn-transformer", ...)`. -/
def transformer_step : Step :=
  ⟨"scheduled-pipeline-sklearn-transformer", .transform⟩

/-- A `sagemaker.workflow.pipeline.Pipeline` object: its name, the names of
its parameters, and its steps list, as passed to the constructor. -/
structure Pipeline where
  name : String
  parameters : List String
  steps : List Step
deriving DecidableEq

/-- The first `Pipeline(...)` call of the scheduling notebook
(`pipeline_name = "sklearn-scheduled-training"`), with
`steps=[step_process, step_train, step_create_model]`. -/
def trainingPipeline : Pipeline :=
  { name := "sklearn-scheduled-training"
    parameters :=
      ["InputData", "ProcessingInstanceType", "ProcessingInstanceCount",
       "TrainingInstanceType", "TrainingInstanceCount",
       "BatchInstanceType", "BatchInstanceCount"]
    steps := [step_process, step_train, step_create_model] }

/-- The second `Pipeline(...)` call of the scheduling notebook
(`pipeline_name = "sklearn-scheduled-inference"`), with
`steps=[transformer_step]`. -/
def inferencePipeline : Pipeline :=
  { name := "sklearn-scheduled-inference"
    parameters :=
      ["ModelName", "TestData", "OutputPath",
       "BatchInstanceType", "BatchInstanceCount"]
    steps := [transformer_step] }

/-- All `Pipeline` objects constructed in the scheduling notebook. -/
def allPipelines : List Pipeline :=
  [trainingPipeline, inferencePipeline]

end Scheduling

namespace Hpo

/-- `sagemaker.tuner.ContinuousParameter(min_value, max_value, scaling_type=...)`:
a range of hyperparameter values described only by its two bounds and a
scaling type — no candidate values are stored. -/
structure ContinuousParameter where
  min_value : ℚ
  max_value : ℚ
  scaling_type : String
deriving DecidableEq

/-- `hyperparameter_ranges` from the tuning notebook:
`alpha` and `lambda`, each `ContinuousParameter(0.01, 10, scaling_type="Logarithmic")`. -/
def hyperparameter_ranges : List (String × ContinuousParameter) :=
  [("alpha", ⟨1/100, 10, "Logarithmic"⟩),
   ("lambda", ⟨1/100, 10, "Logarithmic"⟩)]

/-- `hyperparameter_ranges_linear` from the tuning notebook:
`alpha` and `lambda`, each `ContinuousParameter(0.01, 10, scaling_type="Linear")`. -/
def hyperparameter_ranges_linear : List (String × ContinuousParameter) :=
  [("alpha", ⟨1/100, 10, "Linear"⟩),
   ("lambda", ⟨1/100, 10, "Linear"⟩)]

/-- A `sagemaker.tuner.HyperparameterTuner` configuration, as built by the
two constructor calls in the tuning notebook. -/
structure HyperparameterTuner where
  objective_metric_name : String
  ranges : List (String × ContinuousParameter)
  max_jobs : Nat
  max_parallel_jobs : Nat
  strategy : String
deriving DecidableEq

/-- `tuner_log = HyperparameterTuner(xgb, objective_metric_name,
hyperparameter_ranges, max_jobs=5, max_parallel_jobs=5, strategy="Random")`. -/
def tuner_log : HyperparameterTuner :=
  { objective_metric_name := "validation:auc"
    ranges := hyperparameter_ranges
    max_jobs := 5
    max_parallel_jobs := 5
    strategy := "Random" }

/-- `tuner_linear = HyperparameterTuner(xgb, objective_metric_name,
hyperparameter_ranges_linear, max_jobs=5, max_parallel_jobs=5, strategy="Random")`. -/
def tuner_linear : HyperparameterTuner :=
  { objective_metric_name := "validation:auc"
    ranges := hyperparameter_ranges_linear
    max_jobs := 5
    max_parallel_jobs := 5
    strategy := "Random" }

/-- All `HyperparameterTuner` objects constructed in the notebooks. -/
def allTuners : List HyperparameterTuner :=
  [tuner_log, tuner_linear]

/-- The two hyperparameter-range dictionaries built in the notebooks. -/
def allRangeDicts : List (List (String × ContinuousParameter)) :=
  [hyperparameter_ranges, hyperparameter_ranges_linear]

/-- `np.split(ary, [i, j])` for a one-dimensional `ary`: the three
consecutive pieces `ary[0:i]`, `ary[i:j]`, `ary[j:]`. -/
def np_split (xs : List α) (i j : Nat) : List α × List α × List α :=
  (xs.take i, (xs.take j).drop i, xs.drop j)

/-- The three-way split of the tuning notebook,
`np.split(model_data.sample(frac=1, random_state=1729),
[int(0.7 * len(model_data)), int(0.9 * len(model_data))])`, applied to the
shuffled row list.  `model_data.sample(frac=1)` is a permutation of the
rows, passed in as `shuffled`; `int(0.7 * n)` and `int(0.9 * n)` truncate
nonnegative values downward and are modelled by exact rational arithmetic
as `⌊7n/10⌋` and `⌊9n/10⌋` (Nat division). -/
def train_validation_test_split (shuffled : List α) (n : Nat) :
    List α × List α × List α :=
  np_split shuffled (7 * n / 10) (9 * n / 10)

end Hpo

namespace Traces

/-- One observable operation of a notebook: constructing a configuration
object, submitting a job through the vendor SDK, polling or waiting on a
submitted job, observing a terminal status, asserting a job is
`"Completed"`, building/plotting analytics over finished jobs, or a
side-effect-free inspection or cleanup call. -/
inductive Event where
  | construct (obj : String)
  | submit (job : String) (consumes : List String)
  | poll (job : String)
  | observeStatus (job : String) (status : String)
  | assertCompleted (job : String)
  | analyze (what : String) (jobs : List String)
  | inspect (what : String)
  | cleanup (what : String)
deriving DecidableEq

/-- The tuning notebook `hpo_xgboost_random_log.ipynb` as a trace, in code
order.  `tuner.fit(...)` submits a tuning job consuming the estimator, the
range dictionary, the tuner object and the two channel inputs;
`describe_hyper_parameter_tuning_job` is a poll; the analytics cell polls
both jobs, asserts both statuses are `"Completed"`, then builds the
dataframes `df_log`/`df_linear` and the facet plot;
`tuner_linear.deploy(...)` submits an endpoint and blocks (polls) until it
is in service; `sess.delete_endpoint(...)` is cleanup. -/
def hpoTrace : List Event :=
  [ .construct "smclient",
    .construct "train.csv in S3",
    .construct "validation.csv in S3",
    .construct "s3_input_train",
    .construct "s3_input_validation",
    .construct "xgb",
    .construct "hyperparameter_ranges",
    .construct "tuner_log",
    .submit "tuner_log tuning job"
      ["xgb", "hyperparameter_ranges", "tuner_log",
       "s3_input_train", "s3_input_validation"],
    .poll "tuner_log tuning job",
    .construct "hyperparameter_ranges_linear",
    .construct "tuner_linear",
    .submit "tuner_linear tuning job"
      ["xgb", "hyperparameter_ranges_linear", "tuner_linear",
       "s3_input_train", "s3_input_validation"],
    .poll "tuner_linear tuning job",
    .poll "tuner_log tuning job",
    .poll "tuner_linear tuning job",
    .assertCompleted "tuner_log tuning job",
    .assertCompleted "tuner_linear tuning job",
    .analyze "df_log" ["tuner_log tuning job"],
    .analyze "df_linear" ["tuner_linear tuning job"],
    .analyze "facet scatter plot"
      ["tuner_log tuning job", "tuner_linear tuning job"],
    .submit "endpoint" ["tuner_linear"],
    .poll "endpoint",
    .cleanup "delete_endpoint" ]

/-- The scheduling notebook as a trace, in code order.  `pipeline.upsert`
followed by `pipeline.start` is one submission of a pipeline execution;
`execution.wait()` is a poll; on the inference execution the wait raises
`WaiterError` after matching `PipelineExecutionStatus == "Failed"`, and the
subsequent `execution.describe()` shows the same `"Failed"` status; the
notebook then only lists the S3 output location. -/
def schedulingTrace : List Event :=
  [ .construct "data.csv in S3",
    .construct "x_test_path",
    .construct "y_test_path",
    .construct "training pipeline parameters",
    .construct "sklearn_processor",
    .construct "step_process",
    .construct "sklearn_estimator",
    .construct "step_train",
    .construct "model",
    .construct "step_create_model",
    .construct "training pipeline",
    .submit "training pipeline execution"
      ["training pipeline parameters", "step_process", "step_train",
       "step_create_model", "training pipeline"],
    .poll "training pipeline execution",
    .inspect "step_create_model model name properties",
    .construct "inference pipeline parameters",
    .construct "transformer",
    .construct "transformer_step",
    .construct "inference pipeline",
    .inspect "pipeline definition JSON",
    .submit "inference pipeline execution"
      ["inference pipeline parameters", "transformer", "transformer_step",
       "inference pipeline", "x_test_path"],
    .poll "inference pipeline execution",
    .observeStatus "inference pipeline execution" "Failed",
    .poll "inference pipeline execution",
    .observeStatus "inference pipeline execution" "Failed",
    .inspect "s3 output listing" ]

/-- Every object a submission consumes has a `construct` event earlier in
the trace; `seen` accumulates the objects constructed so far. -/
def submitsAfterConstruction : List String → List Event → Bool
  | _, [] => true
  | seen, .construct c :: rest => submitsAfterConstruction (c :: seen) rest
  | seen, .submit _ cs :: rest =>
      cs.all (fun c => seen.contains c) && submitsAfterConstruction seen rest
  | seen, _ :: rest => submitsAfterConstruction seen rest

/-- Recognizes a poll of job `j`. -/
def isPollOf (j : String) : Event → Bool
  | .poll j2 => j2 == j
  | _ => false

/-- Every submission is followed, later in the trace, by a poll or wait on
the job it submitted. -/
def everySubmitPolled : List Event → Bool
  | [] => true
  | .submit j _ :: rest => rest.any (isPollOf j) && everySubmitPolled rest
  | _ :: rest => everySubmitPolled rest

/-- Every `analyze` event concerns only jobs already asserted to be in the
`"Completed"` status; `done` accumulates the jobs asserted so far. -/
def analysisAfterCompletion : List String → List Event → Bool
  | _, [] => true
  | done, .assertCompleted j :: rest => analysisAfterCompletion (j :: done) rest
  | done, .analyze _ js :: rest =>
      js.all (fun j => done.contains j) && analysisAfterCompletion done rest
  | done, _ :: rest => analysisAfterCompletion done rest

/-- The jobs submitted along a trace, in order. -/
def submittedJobs : List Event → List String
  | [] => []
  | .submit j _ :: rest => j :: submittedJobs rest
  | _ :: rest => submittedJobs rest

/-- No job is submitted twice: no retry and no resubmission anywhere. -/
def noResubmission : List Event → Bool
  | [] => true
  | .submit j _ :: rest =>
      !(submittedJobs rest).contains j && noResubmission rest
  | _ :: rest => noResubmission rest

/-- Events that merely observe or inspect: polling/waiting, reading a
status, or a side-effect-free inspection. -/
def isObservationOnly : Event → Bool
  | .poll _ => true
  | .observeStatus _ _ => true
  | .inspect _ => true
  | _ => false

/-- After any event observes a `"Failed"` status, everything that follows
in the trace only polls, reads statuses or inspects — no submission, no
retry, no other recovery action. -/
def onlyObservationAfterFailure : List Event → Bool
  | [] => true
  | .observeStatus _ s :: rest =>
      (if s == "Failed" then rest.all isObservationOnly else true)
        && onlyObservationAfterFailure rest
  | _ :: rest => onlyObservationAfterFailure rest

end Traces

/-- C2: for every list of scores, dataframe and threshold,
`remove_features(lst, data, threshold)` returns with the dataframe
unchanged — the result of `data.drop` is discarded, so every column present
before the call is still present afterwards, in the same order and with the
same values; in particular each of the three pruning calls on `X_train`,
`X_val` and `X_test` leaves its dataframe identical. -/
theorem remove_features_leaves_dataframe_unchanged
    (lst : List ℚ) (data : FeatureSelection.DataFrame) (threshold : ℚ) :
    FeatureSelection.remove_features lst data threshold = data := by
  unfold FeatureSelection.remove_features
  cases h : (FeatureSelection.features_to_remove lst data threshold).isEmpty <;>
    simp [h]

/-- C2 (witness): the unchanged-dataframe theorem evaluated at the
notebook's threshold `0.01` on a concrete two-column dataframe. -/
theorem remove_features_leaves_dataframe_unchanged_witness :
    FeatureSelection.remove_features [0, 1] ⟨[("a", [1]), ("b", [2])]⟩ (1/100) =
      ⟨[("a", [1]), ("b", [2])]⟩ :=
  remove_features_leaves_dataframe_unchanged [0, 1] ⟨[("a", [1]), ("b", [2])]⟩ (1/100)

/-- C1 (failing input): with scores `[0]`, a dataframe with the single
column `"a"`, and the notebook's threshold `0.01`, the loop flags column
`"a"` for removal because its score `0 <= 0.01`, and `data.drop` would have
produced a dataframe without that column — yet `remove_features` returns
with the dataframe still containing column `"a"`, because the result of
`data.drop(features_to_remove, axis=1)` is discarded.  The call removes
nothing, contradicting the function's own docstring ("Remove features
found in lst from data iff its importance score is below threshold") and
the claim that flagged columns are removed. -/
theorem remove_features_failing_input_eval :
    FeatureSelection.features_to_remove [0] ⟨[("a", [1])]⟩ (1/100) = ["a"] ∧
    (FeatureSelection.DataFrame.drop ⟨[("a", [1])]⟩ ["a"]).cols = [] ∧
    FeatureSelection.remove_features [0] ⟨[("a", [1])]⟩ (1/100) = ⟨[("a", [1])]⟩ := by
  refine ⟨?_, ?_, ?_⟩
  · norm_num [FeatureSelection.features_to_remove, FeatureSelection.DataFrame.columns]
  · norm_num [FeatureSelection.DataFrame.drop]
  · simp [FeatureSelection.remove_features]

/-- C9: for every sequence of scores and dataframe with one column per
score, the list printed by `show_ranked_feature_importance_list` is a
permutation of `zip(data.columns, scores)` and is sorted by score in
non-increasing order. -/
theorem show_ranked_feature_importance_list_sorted_perm
    (scores : List ℚ) (data : FeatureSelection.DataFrame)
    (_h : (FeatureSelection.DataFrame.columns data).length = scores.length) :
    (FeatureSelection.show_ranked_feature_importance_list scores data).Perm
        ((FeatureSelection.DataFrame.columns data).zip scores) ∧
    (FeatureSelection.show_ranked_feature_importance_list scores data).Pairwise
        (fun a b => b.2 ≤ a.2) := by
  constructor
  · exact List.mergeSort_perm _ _
  · have h2 := @List.sorted_mergeSort (String × ℚ)
      (fun a b => decide (b.2 ≤ a.2))
      (fun a b c hab hbc => by
        simp only [decide_eq_true_eq] at *
        exact le_trans hbc hab)
      (fun a b => by
        simp only [Bool.or_eq_true, decide_eq_true_eq]
        exact le_total b.2 a.2)
      ((FeatureSelection.DataFrame.columns data).zip scores)
    have h3 : FeatureSelection.show_ranked_feature_importance_list scores data =
        ((FeatureSelection.DataFrame.columns data).zip scores).mergeSort
          (fun a b => decide (b.2 ≤ a.2)) := rfl
    rw [h3]
    exact h2.imp (fun hab => of_decide_eq_true hab)

/-- C9 (witness): the ranking theorem applied to two concrete scores and a
concrete two-column dataframe. -/
theorem show_ranked_feature_importance_list_sorted_perm_witness :
    (FeatureSelection.DataFrame.columns ⟨[("a", [1]), ("b", [2])]⟩).length =
      ([1, 2] : List ℚ).length ∧
    ((FeatureSelection.show_ranked_feature_importance_list [1, 2]
          ⟨[("a", [1]), ("b", [2])]⟩).Perm
        ((FeatureSelection.DataFrame.columns ⟨[("a", [1]), ("b", [2])]⟩).zip [1, 2]) ∧
      (FeatureSelection.show_ranked_feature_importance_list [1, 2]
          ⟨[("a", [1]), ("b", [2])]⟩).Pairwise (fun a b => b.2 ≤ a.2)) :=
  ⟨by decide, show_ranked_feature_importance_list_sorted_perm [1, 2]
    ⟨[("a", [1]), ("b", [2])]⟩ (by decide)⟩

/-- C3 (counterexample): it is not the case that every `Pipeline`
constructed in the scheduling notebook has a steps list of length exactly
two — the training pipeline is built with three steps and the inference
pipeline with one. -/
theorem not_every_pipeline_has_two_steps :
    ¬ (∀ p ∈ Scheduling.allPipelines, p.steps.length = 2) := by decide

/-- C3 (amended): the training pipeline `"sklearn-scheduled-training"` is
built with a steps list of length exactly three, and the inference pipeline
`"sklearn-scheduled-inference"` with a steps list of length exactly one. -/
theorem pipeline_step_counts_three_and_one :
    Scheduling.trainingPipeline.steps.length = 3 ∧
    Scheduling.inferencePipeline.steps.length = 1 := by decide

/-- C4: over all pipelines constructed in the scheduling notebook, the
training pipeline's steps are exactly the processing step, the training
step and the model-creation step in that order, and the inference
pipeline's steps are exactly the single transform step; no other step kind
appears in any pipeline. -/
theorem pipeline_step_kinds_exact :
    Scheduling.allPipelines.map (fun p => p.steps.map Scheduling.Step.kind) =
      [[.processing, .training, .createModel], [.transform]] := by decide

/-- C5 (counterexample): the search strategies of the two tuners do not
differ — the strategy configured on `tuner_log` equals the strategy
configured on `tuner_linear` (both are `"Random"`). -/
theorem tuner_strategies_coincide :
    Hpo.tuner_log.strategy = Hpo.tuner_linear.strategy := rfl

/-- C5 (amended): the two tuning jobs use the same search strategy,
`"Random"`, on both `tuner_log` and `tuner_linear`; what differs between
them is the hyperparameter scaling type of their ranges — `"Logarithmic"`
for `tuner_log` and `"Linear"` for `tuner_linear`. -/
theorem tuners_both_random_scaling_differs :
    Hpo.tuner_log.strategy = "Random" ∧ Hpo.tuner_linear.strategy = "Random" ∧
    Hpo.tuner_log.ranges.map (fun r => r.2.scaling_type) =
      ["Logarithmic", "Logarithmic"] ∧
    Hpo.tuner_linear.ranges.map (fun r => r.2.scaling_type) =
      ["Linear", "Linear"] :=
  ⟨rfl, rfl, rfl, rfl⟩

/-- C6: every `HyperparameterTuner` constructed in the notebooks is
configured with a vendor-side search strategy that is `"Random"` or
`"Bayesian"`, and every entry of every hyperparameter-range dictionary the
notebook builds holds only range bounds — `0.01` to `10`, for `alpha` and
`lambda` — and a scaling type; no candidate hyperparameter values are
computed locally. -/
theorem tuners_vendor_side_search_config :
    (∀ t ∈ Hpo.allTuners, t.strategy ∈ (["Random", "Bayesian"] : List String)) ∧
    (∀ d ∈ Hpo.allRangeDicts, ∀ r ∈ d,
      r.1 ∈ (["alpha", "lambda"] : List String) ∧
      r.2.min_value = 1/100 ∧ r.2.max_value = 10 ∧
      r.2.scaling_type ∈ (["Logarithmic", "Linear"] : List String)) := by
  constructor
  · intro t ht
    fin_cases ht <;> simp [Hpo.tuner_log, Hpo.tuner_linear]
  · intro d hd
    fin_cases hd <;> intro r hr <;>
      fin_cases hr <;>
        refine ⟨by simp, rfl, rfl, by simp⟩

/-- C6 (witness): the configuration theorem instantiated at `tuner_log`
and at the `alpha` entry of `hyperparameter_ranges`. -/
theorem tuners_vendor_side_search_config_witness :
    Hpo.tuner_log ∈ Hpo.allTuners ∧
    Hpo.hyperparameter_ranges ∈ Hpo.allRangeDicts ∧
    ("alpha", (⟨1/100, 10, "Logarithmic"⟩ : Hpo.ContinuousParameter)) ∈
      Hpo.hyperparameter_ranges ∧
    Hpo.tuner_log.strategy ∈ (["Random", "Bayesian"] : List String) ∧
    ((⟨1/100, 10, "Logarithmic"⟩ : Hpo.ContinuousParameter).min_value = 1/100 ∧
      (⟨1/100, 10, "Logarithmic"⟩ : Hpo.ContinuousParameter).max_value = 10) :=
  ⟨by simp [Hpo.allTuners],
   by simp [Hpo.allRangeDicts],
   by simp [Hpo.hyperparameter_ranges],
   tuners_vendor_side_search_config.1 Hpo.tuner_log (by simp [Hpo.allTuners]),
   (tuners_vendor_side_search_config.2 Hpo.hyperparameter_ranges
      (by simp [Hpo.allRangeDicts])
      ("alpha", ⟨1/100, 10, "Logarithmic"⟩)
      (by simp [Hpo.hyperparameter_ranges])).2.1,
   (tuners_vendor_side_search_config.2 Hpo.hyperparameter_ranges
      (by simp [Hpo.allRangeDicts])
      ("alpha", ⟨1/100, 10, "Logarithmic"⟩)
      (by simp [Hpo.hyperparameter_ranges])).2.2.1⟩

/-- C7: both notebook traces follow construct-submit-poll-analyze: every
configuration object consumed by a job submission has a construct event
earlier in the trace, every submission is followed later by polling or
waiting on the submitted job, and every analytics/plotting event concerns
only jobs already asserted to be in the `"Completed"` status (the tuning
notebook's assertions; the scheduling notebook performs no analytics, so
the condition holds there vacuously). -/
theorem notebook_traces_follow_construct_submit_poll_analyze :
    (Traces.submitsAfterConstruction [] Traces.hpoTrace = true ∧
      Traces.everySubmitPolled Traces.hpoTrace = true ∧
      Traces.analysisAfterCompletion [] Traces.hpoTrace = true) ∧
    (Traces.submitsAfterConstruction [] Traces.schedulingTrace = true ∧
      Traces.everySubmitPolled Traces.schedulingTrace = true ∧
      Traces.analysisAfterCompletion [] Traces.schedulingTrace = true) := by
  decide

/-- C8: in both notebook traces no job or pipeline execution is ever
submitted twice (no retry, no resubmission), and after the inference
pipeline execution is observed in the `"Failed"` status — an observation
that does occur in the scheduling trace — every remaining event only
polls, reads a status or inspects: the only completion and failure
handling is the vendor-provided wait/describe helper. -/
theorem no_recovery_beyond_wait_or_describe :
    (Traces.noResubmission Traces.hpoTrace = true ∧
      Traces.noResubmission Traces.schedulingTrace = true) ∧
    (Traces.onlyObservationAfterFailure Traces.hpoTrace = true ∧
      Traces.onlyObservationAfterFailure Traces.schedulingTrace = true) ∧
    Traces.Event.observeStatus "inference pipeline execution" "Failed" ∈
      Traces.schedulingTrace := by
  decide

/-- C10: for every row list `model_data` with pairwise-distinct rows and
every shuffle of it (the `sample(frac=1)` permutation), the three-way
`np.split` at `⌊0.7n⌋` and `⌊0.9n⌋` partitions the rows: the concatenation
of `train_data`, `validation_data` and `test_data` is a permutation of the
rows of `model_data`, the three parts are pairwise disjoint, and their
lengths are `⌊7n/10⌋`, `⌊9n/10⌋ - ⌊7n/10⌋` and `n - ⌊9n/10⌋` for
`n = len(model_data)`. -/
theorem train_validation_test_split_partition {α : Type}
    (model_data shuffled : List α) (n : Nat)
    (hperm : shuffled.Perm model_data) (hn : n = model_data.length)
    (hnodup : model_data.Nodup) :
    ((Hpo.train_validation_test_split shuffled n).1 ++
        (Hpo.train_validation_test_split shuffled n).2.1 ++
        (Hpo.train_validation_test_split shuffled n).2.2).Perm model_data ∧
    (Hpo.train_validation_test_split shuffled n).1.length = 7 * n / 10 ∧
    (Hpo.train_validation_test_split shuffled n).2.1.length =
      9 * n / 10 - 7 * n / 10 ∧
    (Hpo.train_validation_test_split shuffled n).2.2.length = n - 9 * n / 10 ∧
    (Hpo.train_validation_test_split shuffled n).1.Disjoint
      (Hpo.train_validation_test_split shuffled n).2.1 ∧
    (Hpo.train_validation_test_split shuffled n).1.Disjoint
      (Hpo.train_validation_test_split shuffled n).2.2 ∧
    (Hpo.train_validation_test_split shuffled n).2.1.Disjoint
      (Hpo.train_validation_test_split shuffled n).2.2 := by
  have hlen : shuffled.length = n := by rw [hperm.length_eq, hn]
  have hij : 7 * n / 10 ≤ 9 * n / 10 := by omega
  have hjn : 9 * n / 10 ≤ n := by omega
  have hin : 7 * n / 10 ≤ n := by omega
  have happ : (Hpo.train_validation_test_split shuffled n).1 ++
      (Hpo.train_validation_test_split shuffled n).2.1 ++
      (Hpo.train_validation_test_split shuffled n).2.2 = shuffled := by
    show shuffled.take (7 * n / 10) ++
        (shuffled.take (9 * n / 10)).drop (7 * n / 10) ++
        shuffled.drop (9 * n / 10) = shuffled
    have h1 : shuffled.take (7 * n / 10) =
        (shuffled.take (9 * n / 10)).take (7 * n / 10) := by
      rw [List.take_take, min_eq_left hij]
    rw [h1, List.take_append_drop, List.take_append_drop]
  have hnd : shuffled.Nodup := (hperm.nodup_iff).mpr hnodup
  have hnd2 : ((Hpo.train_validation_test_split shuffled n).1 ++
      (Hpo.train_validation_test_split shuffled n).2.1 ++
      (Hpo.train_validation_test_split shuffled n).2.2).Nodup := by
    rw [happ]; exact hnd
  rw [List.append_assoc, List.nodup_append] at hnd2
  obtain ⟨nd1, nd23, disj1⟩ := hnd2
  rw [List.nodup_append] at nd23
  obtain ⟨nd2, nd3, disj23⟩ := nd23
  refine ⟨by rw [happ]; exact hperm, ?_, ?_, ?_, ?_, ?_, ?_⟩
  · show (shuffled.take (7 * n / 10)).length = _
    rw [List.length_take, hlen, min_eq_left hin]
  · show ((shuffled.take (9 * n / 10)).drop (7 * n / 10)).length = _
    rw [List.length_drop, List.length_take, hlen, min_eq_left hjn]
  · show (shuffled.drop (9 * n / 10)).length = _
    rw [List.length_drop, hlen]
  · exact fun a ha hb => disj1 ha (List.mem_append_left _ hb)
  · exact fun a ha hb => disj1 ha (List.mem_append_right _ hb)
  · exact disj23

/-- C10 (witness): the partition theorem applied to the five distinct rows
`[0, 1, 2, 3, 4]` shuffled to `[4, 2, 0, 1, 3]`, split at
`⌊0.7 * 5⌋ = 3` and `⌊0.9 * 5⌋ = 4`. -/
theorem train_validation_test_split_partition_witness :
    (([4, 2, 0, 1, 3] : List ℕ).Perm [0, 1, 2, 3, 4] ∧
      (5 : ℕ) = ([0, 1, 2, 3, 4] : List ℕ).length ∧
      ([0, 1, 2, 3, 4] : List ℕ).Nodup) ∧
    (((Hpo.train_validation_test_split ([4, 2, 0, 1, 3] : List ℕ) 5).1 ++
        (Hpo.train_validation_test_split ([4, 2, 0, 1, 3] : List ℕ) 5).2.1 ++
        (Hpo.train_validation_test_split ([4, 2, 0, 1, 3] : List ℕ) 5).2.2).Perm
        [0, 1, 2, 3, 4] ∧
      (Hpo.train_validation_test_split ([4, 2, 0, 1, 3] : List ℕ) 5).1.length =
        7 * 5 / 10 ∧
      (Hpo.train_validation_test_split ([4, 2, 0, 1, 3] : List ℕ) 5).2.1.length =
        9 * 5 / 10 - 7 * 5 / 10 ∧
      (Hpo.train_validation_test_split ([4, 2, 0, 1, 3] : List ℕ) 5).2.2.length =
        5 - 9 * 5 / 10 ∧
      (Hpo.train_validation_test_split ([4, 2, 0, 1, 3] : List ℕ) 5).1.Disjoint
        (Hpo.train_validation_test_split ([4, 2, 0, 1, 3] : List ℕ) 5).2.1 ∧
      (Hpo.train_validation_test_split ([4, 2, 0, 1, 3] : List ℕ) 5).1.Disjoint
        (Hpo.train_validation_test_split ([4, 2, 0, 1, 3] : List ℕ) 5).2.2 ∧
      (Hpo.train_validation_test_split ([4, 2, 0, 1, 3] : List ℕ) 5).2.1.Disjoint
        (Hpo.train_validation_test_split ([4, 2, 0, 1, 3] : List ℕ) 5).2.2) :=
  ⟨⟨by decide, by decide, by decide⟩,
   train_validation_test_split_partition [0, 1, 2, 3, 4] [4, 2, 0, 1, 3] 5
     (by decide) (by decide) (by decide)⟩
